import Mathlib

/-!
Verification development for the gene-synthesis simulation backend.

The Python sources are shallowly embedded: pure functions become Lean
functions, floats become exact rationals, stateful code becomes explicit
state passing, and the randomized / external collaborators (NCBI client,
ESMFold folding service, LLM recommendation chain, `random` draws) become
universally quantified oracle parameters, so every theorem quantifies over
all possible behaviours of those collaborators.
-/

/-! ## Basic string utilities (Python `in` on strings, prefixes, lower/upper) -/

/-- Boolean test that `pre` is an initial segment of `l` (helper for the
substring test used to embed Python's `in` operator on strings). -/
def startsWithList : List Char → List Char → Bool
  | [], _ => true
  | _ :: _, [] => false
  | a :: as, b :: bs => a == b && startsWithList as bs

/-- Boolean substring test on character lists: `hasSubstr s sub` holds when
`sub` occurs contiguously inside `s`. -/
def hasSubstr : List Char → List Char → Bool
  | [], sub => startsWithList sub []
  | a :: t, sub => startsWithList sub (a :: t) || hasSubstr t sub

/-- Embedding of Python's `sub in s` substring test on strings. -/
def strContains (s sub : String) : Bool :=
  hasSubstr s.toList sub.toList

/-- Embedding of Python's `str.upper()` on the ASCII identifiers used by
the pipeline, implemented characterwise so it evaluates by `rfl`. -/
def strUpper (s : String) : String :=
  String.mk (s.toList.map Char.toUpper)

/-- Embedding of Python's `str.lower()` on the ASCII trait names used by
the pipeline, implemented characterwise so it evaluates by `rfl`. -/
def strLower (s : String) : String :=
  String.mk (s.toList.map Char.toLower)

/-- First-match association-list lookup, the embedding of a Python `dict`
indexed in insertion order (`d[k]` / `k in d` / `d.get(k, default)`). -/
def lookupBy {α : Type} (l : List (String × α)) (k : String) : Option α :=
  (l.find? (fun p => p.1 == k)).map Prod.snd

/-- First-match association-list lookup with `Char` keys (amino-acid keyed
codon-usage dictionaries). -/
def lookupChar {α : Type} (l : List (Char × α)) (k : Char) : Option α :=
  (l.find? (fun p => p.1 == k)).map Prod.snd

/-! ## Data model (core/models.py) -/

/-- Embedding of `Organism` (core/models.py): a fixed closed enumeration. -/
inductive Organism where
  | human
  | mouse
  | rat
  | zebrafish
  | fruitfly
  | e_coli
deriving DecidableEq, Repr

/-- Embedding of the `.value` string of each `Organism` enum member. -/
def organismValue : Organism → String
  | .human => "homo_sapiens"
  | .mouse => "mus_musculus"
  | .rat => "rattus_norvegicus"
  | .zebrafish => "danio_rerio"
  | .fruitfly => "drosophila_melanogaster"
  | .e_coli => "escherichia_coli"

/-- Embedding of `SynthesisRequest` (core/models.py). -/
structure SynthesisRequest where
  host_organism : Organism
  desired_trait : String
  optimize : Bool
  safety_check : Bool
deriving DecidableEq, Repr

/-- Embedding of the plain gene dictionaries produced by
`BioinformaticsEngine.find_gene_for_trait` (name/species/ncbi_id/sequence/description). -/
structure GeneRec where
  name : String
  species : String
  ncbi_id : String
  sequence : String
  description : String
deriving DecidableEq, Repr

/-- Embedding of `GeneData` (core/models.py). -/
structure GeneData where
  name : String
  species : String
  ncbi_id : String
  sequence : String
  sequence_length : Nat
  description : String
deriving DecidableEq, Repr

/-- Embedding of `OffTargetSite` (core/models.py). -/
structure OffTargetSite where
  sequence : String
  chromosome : String
  position : Int
  mismatch_count : Nat
  potential_impact : String
deriving DecidableEq, Repr

/-- Embedding of `OffTargetAnalysis` (core/models.py). -/
structure OffTargetAnalysis where
  total_sites : Nat
  high_risk_sites : Nat
  sites : List OffTargetSite
  warnings : List String
deriving DecidableEq, Repr

/-- Embedding of `ProteinStructure` (core/models.py); the float confidence
becomes an exact rational. -/
structure ProteinStructure where
  pdb_data : String
  confidence_score : ℚ
  method : String
deriving DecidableEq, Repr

/-- Embedding of `RiskAssessment` (core/models.py). -/
structure RiskAssessment where
  toxicity_score : ℚ
  immunogenicity_score : ℚ
  environmental_risk_score : ℚ
  recommendations : List String
deriving DecidableEq, Repr

/-- Embedding of `SynthesisResponse` (core/models.py). -/
structure SynthesisResponse where
  request_id : String
  status : String
  gene : GeneData
  optimized_sequence : Option String
  insertion_locus : String
  off_target_analysis : OffTargetAnalysis
  protein_structure : ProteinStructure
  risk_assessment : RiskAssessment
  recommendation : String
  confidence_score : ℚ
deriving DecidableEq, Repr

/-! ## Translation (standard genetic code)

The codon optimizer delegates translation to the external Biopython library
(`Seq(sequence).translate()`), which is not part of this repository's
sources. -/

/-- The standard genetic code: each sense codon mapped to its one-letter
amino acid, stop codons mapped to the asterisk character. This agrees
entry-for-entry with the repository's own codon table in
`BioinformaticsEngine._get_human_codon_table` (which uses three-letter
names and the word STOP). -/
def standard_genetic_code : List (String × Char) :=
  [("TTT", 'F'), ("TTC", 'F'), ("TTA", 'L'), ("TTG", 'L'),
   ("CTT", 'L'), ("CTC", 'L'), ("CTA", 'L'), ("CTG", 'L'),
   ("ATT", 'I'), ("ATC", 'I'), ("ATA", 'I'), ("ATG", 'M'),
   ("GTT", 'V'), ("GTC", 'V'), ("GTA", 'V'), ("GTG", 'V'),
   ("TCT", 'S'), ("TCC", 'S'), ("TCA", 'S'), ("TCG", 'S'),
   ("CCT", 'P'), ("CCC", 'P'), ("CCA", 'P'), ("CCG", 'P'),
   ("ACT", 'T'), ("ACC", 'T'), ("ACA", 'T'), ("ACG", 'T'),
   ("GCT", 'A'), ("GCC", 'A'), ("GCA", 'A'), ("GCG", 'A'),
   ("TAT", 'Y'), ("TAC", 'Y'), ("TAA", '*'), ("TAG", '*'),
   ("CAT", 'H'), ("CAC", 'H'), ("CAA", 'Q'), ("CAG", 'Q'),
   ("AAT", 'N'), ("AAC", 'N'), ("AAA", 'K'), ("AAG", 'K'),
   ("GAT", 'D'), ("GAC", 'D'), ("GAA", 'E'), ("GAG", 'E'),
   ("TGT", 'C'), ("TGC", 'C'), ("TGA", '*'), ("TGG", 'W'),
   ("CGT", 'R'), ("CGC", 'R'), ("CGA", 'R'), ("CGG", 'R'),
   ("AGT", 'S'), ("AGC", 'S'), ("AGA", 'R'), ("AGG", 'R'),
   ("GGT", 'G'), ("GGC", 'G'), ("GGA", 'G'), ("GGG", 'G')]

/-- Split a character list into consecutive codons of three characters,
failing when the length is not a multiple of three. -/
def chunk3 : List Char → Option (List String)
  | [] => some []
  | a :: b :: c :: rest => (chunk3 rest).map (fun l => String.mk [a, b, c] :: l)
  | _ => none

/-- Translate a single codon under the standard genetic code; fails on a
codon that is not a standard A/C/G/T codon. -/
def translate_codon (c : String) : Option Char :=
  lookupBy standard_genetic_code c

/-- Translate each codon in order, failing as soon as one codon is invalid. -/
def mapCodons : List String → Option (List Char)
  | [] => some []
  | c :: rest =>
    match translate_codon c with
    | none => none
    | some a => (mapCodons rest).map (fun l => a :: l)

/-- Modelled from the spec: full-sequence translation as performed by the
external Biopython `Seq.translate` call in
`BioinformaticsEngine.optimize_codon_usage` (the Biopython library is not
part of the repository sources). Per the spec's contract it fails (raises)
when the sequence length is not a multiple of three or a codon contains an
invalid base, and otherwise maps every in-frame codon — including internal
stop codons, rendered as the asterisk character — to its one-letter amino
acid under the standard genetic code. -/
def translate_sequence (s : String) : Option String :=
  (chunk3 s.toList).bind (fun cs => (mapCodons cs).map (fun l => String.mk l))

/-! ## Codon usage tables and the codon optimizer
(core/bioinformatics.py, `optimize_codon_usage`) -/

/-- Embedding of `HUMAN_CODON_USAGE` (core/bioinformatics.py); the
two-decimal float frequencies are represented exactly as hundredths. -/
def HUMAN_CODON_USAGE : List (Char × List (String × Nat)) :=
  [('A', [("GCT", 26), ("GCC", 40), ("GCA", 23), ("GCG", 11)]),
   ('R', [("CGT", 8), ("CGC", 19), ("CGA", 11), ("CGG", 21), ("AGA", 20), ("AGG", 20)]),
   ('N', [("AAT", 46), ("AAC", 54)]),
   ('D', [("GAT", 46), ("GAC", 54)]),
   ('C', [("TGT", 45), ("TGC", 55)]),
   ('Q', [("CAA", 25), ("CAG", 75)]),
   ('E', [("GAA", 42), ("GAG", 58)]),
   ('G', [("GGT", 16), ("GGC", 34), ("GGA", 25), ("GGG", 25)]),
   ('H', [("CAT", 41), ("CAC", 59)]),
   ('I', [("ATT", 36), ("ATC", 48), ("ATA", 16)]),
   ('L', [("TTA", 7), ("TTG", 13), ("CTT", 13), ("CTC", 20), ("CTA", 7), ("CTG", 41)]),
   ('K', [("AAA", 42), ("AAG", 58)]),
   ('M', [("ATG", 100)]),
   ('F', [("TTT", 45), ("TTC", 55)]),
   ('P', [("CCT", 28), ("CCC", 33), ("CCA", 27), ("CCG", 11)]),
   ('S', [("TCT", 18), ("TCC", 22), ("TCA", 15), ("TCG", 6), ("AGT", 15), ("AGC", 24)]),
   ('T', [("ACT", 24), ("ACC", 36), ("ACA", 28), ("ACG", 12)]),
   ('W', [("TGG", 100)]),
   ('Y', [("TAT", 43), ("TAC", 57)]),
   ('V', [("GTT", 18), ("GTC", 24), ("GTA", 11), ("GTG", 47)]),
   ('*', [("TAA", 28), ("TAG", 20), ("TGA", 52)])]

/-- Embedding of `MOUSE_CODON_USAGE` (core/bioinformatics.py): as in the
source, only the amino acids A, R and L are present. -/
def MOUSE_CODON_USAGE : List (Char × List (String × Nat)) :=
  [('A', [("GCT", 27), ("GCC", 41), ("GCA", 21), ("GCG", 11)]),
   ('R', [("CGT", 9), ("CGC", 18), ("CGA", 10), ("CGG", 22), ("AGA", 21), ("AGG", 20)]),
   ('L', [("TTA", 8), ("TTG", 14), ("CTT", 12), ("CTC", 19), ("CTA", 6), ("CTG", 42)])]

/-- Embedding of `ECOLI_CODON_USAGE` (core/bioinformatics.py): as in the
source, only the amino acids A, R and L are present. -/
def ECOLI_CODON_USAGE : List (Char × List (String × Nat)) :=
  [('A', [("GCT", 18), ("GCC", 26), ("GCA", 21), ("GCG", 35)]),
   ('R', [("CGT", 36), ("CGC", 36), ("CGA", 7), ("CGG", 11), ("AGA", 7), ("AGG", 4)]),
   ('L', [("TTA", 14), ("TTG", 13), ("CTT", 12), ("CTC", 10), ("CTA", 4), ("CTG", 47)])]

/-- Embedding of the organism dispatch in `optimize_codon_usage`: human and
unknown organisms use the human table; mouse and E. coli use their partial
tables (both are in `locals()` at the dispatch point in the source). -/
def codon_usage_table : Organism → List (Char × List (String × Nat))
  | .human => HUMAN_CODON_USAGE
  | .mouse => MOUSE_CODON_USAGE
  | .e_coli => ECOLI_CODON_USAGE
  | _ => HUMAN_CODON_USAGE

/-- Embedding of Python's `max(codons.keys(), key=lambda k: codons[k])`:
the first key attaining the maximal value, in dictionary insertion order
(Python's `max` keeps the first maximal element). The empty case cannot
occur for the tables in the source. -/
def argmaxFirst : List (String × Nat) → String
  | [] => ""
  | p :: rest => (rest.foldl (fun acc q => if q.2 > acc.2 then q else acc) p).1

/-- Embedding of the per-amino-acid body of the optimization loop in
`optimize_codon_usage`: the most frequent codon when the amino acid is a
key of the organism's table, and the sentinel `NNN` otherwise. -/
def preferred_codon (table : List (Char × List (String × Nat))) (aa : Char) : String :=
  match lookupChar table aa with
  | some codons => argmaxFirst codons
  | none => "NNN"

/-- Embedding of `BioinformaticsEngine.optimize_codon_usage`
(core/bioinformatics.py): translate the sequence (returning the input
unchanged if translation fails), walk the amino acids up to the first stop,
and emit each amino acid's preferred codon for the organism. The GC-content
logging in the source is observability only and does not affect the
result. -/
def optimize_codon_usage (sequence : String) (organism : Organism) : String :=
  match translate_sequence sequence with
  | none => sequence
  | some aa_sequence =>
    let pre := aa_sequence.toList.takeWhile (fun aa => aa ≠ '*')
    let optimized_codons := pre.map (preferred_codon (codon_usage_table organism))
    String.join optimized_codons

example : optimize_codon_usage "ATGTTAGCTTAAATG" Organism.human = "ATGCTGGCC" := by rfl

example : optimize_codon_usage "ATGG" Organism.human = "ATGG" := by rfl

example : optimize_codon_usage "ATG" Organism.mouse = "NNN" := by rfl

/-! ## GC content

Both GC call sites that influence results guard the degenerate empty
sequence themselves: the orchestrator's fallback
(`api/endpoints.py` lines 240-242) computes
`(count(G)+count(C))/len * 100` with `len == 0` mapped to `50`, and the
similarity calculation (`core/bioinformatics.py` line 406) uses
`GC(query_seq) if query_seq else 50.0`. -/

/-- Modelled from the spec: GC percentage as used by the pipeline — the
external Biopython `GC` utility on the pipeline's uppercase A/C/G/T
sequences agrees with the in-repository fallback formula
`100 * (count(G)+count(C)) / length`, and the spec fixes `length == 0` to
be treated as GC% = 50, matching both guarded call sites. -/
def gc_content (s : String) : ℚ :=
  if s.length = 0 then 50
  else ((s.toList.count 'G' + s.toList.count 'C' : ℚ) / s.length) * 100

/-! ## Off-target predictor (core/bioinformatics.py) -/

/-- One entry of the `genomic_hotspots` table in
`BioinformaticsEngine._find_real_off_targets`; `kind` embeds the `type`
field and `stop` the `end` field (both reserved words in Lean). -/
structure GenomicRegion where
  chr : String
  start : Int
  stop : Int
  kind : String
  risk : String
deriving DecidableEq, Repr

/-- The human entry of the `genomic_hotspots` table in
`BioinformaticsEngine._find_real_off_targets`. -/
def human_hotspots : List GenomicRegion :=
  [⟨"Chr1", 1000000, 5000000, "gene_cluster", "High"⟩,
   ⟨"Chr2", 10000000, 15000000, "regulatory_region", "Medium"⟩,
   ⟨"Chr3", 20000000, 25000000, "intergenic", "Low"⟩,
   ⟨"Chr6", 28000000, 33000000, "HLA_complex", "High"⟩,
   ⟨"Chr11", 68000000, 69000000, "LRP5_locus", "Medium"⟩,
   ⟨"Chr17", 43000000, 44000000, "BRCA1_region", "High"⟩,
   ⟨"Chr19", 55115756, 55115856, "AAVS1_safe_harbor", "Low"⟩,
   ⟨"ChrX", 153000000, 154000000, "F8_locus", "Medium"⟩]

/-- Embedding of the `genomic_hotspots` table (with `dict.get` defaulting
unlisted organisms to the human regions). -/
def genomic_hotspots : Organism → List GenomicRegion
  | .mouse =>
    [⟨"Chr1", 3000000, 8000000, "gene_cluster", "High"⟩,
     ⟨"Chr2", 12000000, 17000000, "regulatory_region", "Medium"⟩,
     ⟨"Chr7", 45000000, 50000000, "intergenic", "Low"⟩]
  | .e_coli =>
    [⟨"Chromosome", 100000, 200000, "essential_genes", "High"⟩,
     ⟨"Chromosome", 500000, 600000, "metabolic_cluster", "Medium"⟩,
     ⟨"Chromosome", 1000000, 1100000, "intergenic", "Low"⟩]
  | _ => human_hotspots

/-- Embedding of the `context_similarity` table in
`BioinformaticsEngine._calculate_sequence_similarity`. -/
def context_similarity : List (String × ℚ) :=
  [("gene_cluster", 0.75), ("regulatory_region", 0.65), ("HLA_complex", 0.80),
   ("BRCA1_region", 0.70), ("essential_genes", 0.85), ("metabolic_cluster", 0.60),
   ("intergenic", 0.45), ("AAVS1_safe_harbor", 0.30), ("LRP5_locus", 0.55),
   ("F8_locus", 0.60)]

/-- Embedding of the `expected_gc` dictionary lookup in
`_calculate_sequence_similarity`; every stored risk tier is one of the three
keyed values. -/
def expected_gc (risk : String) : ℚ :=
  if risk == "High" then 60 else if risk == "Medium" then 45 else 40

/-- Embedding of `BioinformaticsEngine._calculate_sequence_similarity`. -/
def calculate_sequence_similarity (query_seq : String) (region : GenomicRegion) : ℚ :=
  let query_gc := gc_content query_seq
  let base_similarity := (lookupBy context_similarity region.kind).getD 0.5
  let gc_factor := 1 - |query_gc - expected_gc region.risk| / 100
  base_similarity * gc_factor

/-- Embedding of `BioinformaticsEngine._calculate_mismatches`: truncate both
sequences to the shorter length and count positionwise differences. -/
def calculate_mismatches (sequence1 sequence2 : String) : Nat :=
  let n := min sequence1.length sequence2.length
  (((sequence1.toList.take n).zip (sequence2.toList.take n)).filter
    (fun p => p.1 != p.2)).length

/-- Embedding of `BioinformaticsEngine._assess_genomic_impact`: the impact
tier is a function of the gene context alone. -/
def assess_genomic_impact (gene_context : String) : String :=
  if gene_context ∈ ["gene_cluster", "HLA_complex", "BRCA1_region", "essential_genes"] then
    "High"
  else if gene_context ∈ ["regulatory_region", "LRP5_locus", "F8_locus", "metabolic_cluster"] then
    "Medium"
  else
    "Low"

/-- Oracle for the `random` module draws inside the off-target predictor:
`genSeq` stands for the randomized helper
`_generate_realistic_target_sequence(original, similarity)` and `randintIn`
for `random.randint(start, end)`. Theorems quantify over every oracle, so
they cover every possible draw. -/
structure RandomOracle where
  genSeq : String → ℚ → String
  randintIn : Int → Int → Int

/-- One element of the `potential_targets` list built by
`BioinformaticsEngine._find_real_off_targets`. -/
structure PotentialTarget where
  sequence : String
  chromosome : String
  position : Int
  gene_context : String
  similarity_score : ℚ
deriving Repr

/-- Embedding of `BioinformaticsEngine._find_real_off_targets`: regions
whose similarity exceeds 0.6 yield a synthesized target at a random
position, in table order. -/
def find_real_off_targets (sequence : String) (host_organism : Organism)
    (rng : RandomOracle) : List PotentialTarget :=
  (genomic_hotspots host_organism).filterMap (fun region =>
    let similarity := calculate_sequence_similarity sequence region
    if similarity > 0.6 then
      some { sequence := rng.genSeq sequence similarity,
             chromosome := region.chr,
             position := rng.randintIn region.start region.stop,
             gene_context := region.kind,
             similarity_score := similarity }
    else none)

/-- Embedding of the `real_coordinates` table in
`BioinformaticsEngine._minimal_real_off_target_analysis` (unlisted
organisms default to the human coordinates). -/
def minimal_real_coordinates : Organism → List (String × Int × String × String)
  | .mouse =>
    [("Chr7", 45000000, "Rosa26_locus", "Low"),
     ("Chr2", 12500000, "regulatory_region", "Medium")]
  | .e_coli =>
    [("Chromosome", 500000, "lac_operon_region", "Low"),
     ("Chromosome", 1200000, "essential_region", "High")]
  | _ =>
    [("Chr19", 55115756, "AAVS1_safe_harbor", "Low"),
     ("Chr11", 68200000, "LRP5_region", "Medium")]

/-- Embedding of `BioinformaticsEngine._minimal_real_off_target_analysis`,
the fallback site list used after an internal fault. -/
def minimal_real_off_target_analysis (sequence : String) (host_organism : Organism)
    (rng : RandomOracle) : List OffTargetSite :=
  (minimal_real_coordinates host_organism).map (fun c =>
    let target_seq := rng.genSeq sequence 0.7
    let mismatch_count := calculate_mismatches (sequence.take target_seq.length) target_seq
    { sequence := target_seq,
      chromosome := c.1,
      position := c.2.1,
      mismatch_count := mismatch_count,
      potential_impact := c.2.2.2 })

/-- Embedding of `BioinformaticsEngine.predict_off_target_effects`. The
`fault` flag models whether the `try` body raised (the `except` branch then
replaces the sites with the minimal fallback and appends the degraded
warning); on the normal path the four warning rules are evaluated in source
order. Both branches flow into the one `OffTargetAnalysis` constructor call
of the source, which computes `total_sites` and `high_risk_sites` from the
final site list. -/
def predict_off_target_effects (sequence : String) (host_organism : Organism)
    (rng : RandomOracle) (fault : Bool) : OffTargetAnalysis :=
  let data : List OffTargetSite × List String :=
    if fault then
      (minimal_real_off_target_analysis sequence host_organism rng,
       ["Using simplified off-target analysis due to database limitations"])
    else
      let targets := find_real_off_targets sequence host_organism rng
      let sites := targets.map (fun t =>
        { sequence := t.sequence,
          chromosome := t.chromosome,
          position := t.position,
          mismatch_count := calculate_mismatches sequence t.sequence,
          potential_impact := assess_genomic_impact t.gene_context : OffTargetSite })
      let high_risk_count := (sites.filter (fun st => st.potential_impact == "High")).length
      let low_mismatch_sites := sites.filter (fun st => st.mismatch_count ≤ 2)
      let warnings :=
        (if sites.length > 5 then
          ["High number of potential off-target sites detected - consider sequence refinement"]
        else []) ++
        (if high_risk_count > 0 then
          [toString high_risk_count ++ " high-risk off-target sites in critical genomic regions"]
        else []) ++
        (if low_mismatch_sites.length > 0 then
          [toString low_mismatch_sites.length ++ " sites with ≤2 mismatches - very high off-target risk"]
        else []) ++
        (if sites.isEmpty then
          ["No significant off-target sites detected - low risk profile"]
        else [])
      (sites, warnings)
  { total_sites := data.1.length,
    high_risk_sites := (data.1.filter (fun st => st.potential_impact == "High")).length,
    sites := data.1,
    warnings := data.2 }

/-! ## Confidence scorer (api/endpoints.py, run_simulation step 8) -/

/-- Embedding of the inline enhanced-confidence calculation in
`run_simulation` (api/endpoints.py lines 244-269): base 0.6, adjusted by GC
band, protein-coding shape and length band, then clamped with
`min(0.95, max(0.3, confidence))`. -/
def confidence_score_calc (target_sequence : String) : ℚ :=
  let gc := gc_content target_sequence
  let base : ℚ := 0.6
  let after_gc :=
    if 40 ≤ gc ∧ gc ≤ 60 then base + 0.15
    else if 30 ≤ gc ∧ gc ≤ 70 then base + 0.05
    else base - 0.1
  let is_protein_coding := target_sequence.length % 3 = 0 ∧ target_sequence.length > 30
  let after_coding := if is_protein_coding then after_gc + 0.1 else after_gc
  let after_length :=
    if target_sequence.length < 2000 then after_coding + 0.15
    else if target_sequence.length < 5000 then after_coding + 0.05
    else after_coding - 0.1
  min 0.95 (max 0.3 after_length)

/-- The confidence formula exactly as the spec words it (section 4.7): a sum
of independent adjustments over the base 0.6 — GC band, "non-zero multiple
of 3 and more than 30 bases", length band — clamped to [0.3, 0.95], with
GC% being `100*(count(G)+count(C))/length` and a zero-length sequence
treated as GC% 50. Stated for comparison with `confidence_score_calc`. -/
def confidence_score_spec (sequence : String) : ℚ :=
  let gc : ℚ :=
    if sequence.length = 0 then 50
    else 100 * (sequence.toList.count 'G' + sequence.toList.count 'C' : ℚ) / sequence.length
  let gc_adjust : ℚ :=
    if 40 ≤ gc ∧ gc ≤ 60 then 0.15
    else if 30 ≤ gc ∧ gc ≤ 70 then 0.05
    else -0.1
  let coding_adjust : ℚ :=
    if sequence.length ≠ 0 ∧ sequence.length % 3 = 0 ∧ sequence.length > 30 then 0.1 else 0
  let length_adjust : ℚ :=
    if sequence.length < 2000 then 0.15
    else if sequence.length < 5000 then 0.05
    else -0.1
  min 0.95 (max 0.3 (0.6 + gc_adjust + coding_adjust + length_adjust))

/-! ## Risk assessor (core/bioinformatics.py, assess_risks) -/

/-- Embedding of `BioinformaticsEngine.assess_risks`; the three
`random.uniform` draws are passed in as oracle values and the
recommendation rules are evaluated in source order. -/
def assess_risks (toxicity immunogenicity environmental_risk : ℚ) : RiskAssessment :=
  let recs :=
    (if toxicity > 0.6 then
      ["Consider protein engineering to reduce potential toxicity"] else []) ++
    (if immunogenicity > 0.5 then
      ["Evaluate potential immune responses in the host organism"] else []) ++
    (if environmental_risk > 0.4 then
      ["Implement containment strategies for environmental release"] else [])
  let recommendations :=
    if recs.isEmpty then
      ["No significant risks identified. Proceed with standard validation protocols."]
    else recs
  { toxicity_score := toxicity,
    immunogenicity_score := immunogenicity,
    environmental_risk_score := environmental_risk,
    recommendations := recommendations }

/-! ## Structure predictor (core/ai_services.py, AIService.fold_protein) -/

/-- Result of one `AIService.fold_protein` call together with the
bookkeeping needed for the temporal claims: whether the external provider
was attempted, and the new value of the process-wide `esmfold_available`
flag. -/
structure FoldStep where
  result : ProteinStructure
  attempted_external : Bool
  available' : Bool
deriving Repr

/-- Embedding of `AIService.fold_protein` (core/ai_services.py). The state
is the `esmfold_available` flag. The external provider's behaviour for this
call is the oracle `ext`: `none` models `fold_sequence_esmfold` raising, and
`some p` models it returning payload `p`, with the empty payload triggering
the source's `ValueError("ESMFold returned empty result")`; either failure
clears the flag. The pure helpers `_extract_confidence_from_pdb`,
`_generate_enhanced_pdb` and `_calculate_simulation_confidence` (all total,
exception-free functions in the source whose values no claim depends on)
are abstracted as the function parameters `extractConf`, `genPdb` and
`simConf`, so theorems hold for every choice of them. -/
def fold_protein (esmfold_available : Bool) (ext : Option String)
    (extractConf : String → ℚ) (genPdb : String → String) (simConf : String → ℚ)
    (sequence : String) : FoldStep :=
  let step : Option String × Bool :=
    if esmfold_available then
      match ext with
      | some p => if p.length ≠ 0 then (some p, true) else (none, false)
      | none => (none, false)
    else (none, esmfold_available)
  match step with
  | (some p, flag) =>
    { result := { pdb_data := p, confidence_score := extractConf p, method := "ESMFold" },
      attempted_external := esmfold_available,
      available' := flag }
  | (none, flag) =>
    { result := { pdb_data := genPdb sequence, confidence_score := simConf sequence,
                  method := "Simulated" },
      attempted_external := esmfold_available,
      available' := flag }

/-- The `esmfold_available` flag after a whole sequence of `fold_protein`
calls, each with its own external-provider behaviour and input sequence. -/
def fold_flag_run (extractConf : String → ℚ) (genPdb : String → String)
    (simConf : String → ℚ) (flag : Bool) (calls : List (Option String × String)) : Bool :=
  calls.foldl (fun f c => (fold_protein f c.1 extractConf genPdb simConf c.2).available') flag

/-! ## Insertion locus (api/endpoints.py, find_real_insertion_locus) -/

/-- Embedding of the `safe_harbors` table in `find_real_insertion_locus`,
keyed by the organism value string, values in insertion order. -/
def safe_harbors : List (String × List (String × String)) :=
  [("homo_sapiens",
    [("AAVS1", "Chr19:55115756"), ("CCR5", "Chr3:46414943"),
     ("ROSA26", "Chr6:113072530"), ("HPRT1", "ChrX:134460000")]),
   ("mus_musculus",
    [("Rosa26", "Chr6:113012944"), ("H11", "Chr11:95397000"), ("Hprt", "ChrX:53269000")]),
   ("rattus_norvegicus",
    [("Rosa26", "Chr1:220500000"), ("Hprt1", "ChrX:137000000")]),
   ("escherichia_coli",
    [("attB", "Position:4361000"), ("lacZ", "Position:365000")])]

/-- Embedding of the `gene_specific_sites` table in
`find_real_insertion_locus`. -/
def gene_specific_sites : List (String × List (String × String)) :=
  [("homo_sapiens",
    [("LRP5", "Chr11:68200000"), ("COL1A1", "Chr17:50190000"),
     ("MYOSTATIN", "Chr2:190430000"), ("EPO", "Chr7:100720000"),
     ("VEGF", "Chr6:43737000"), ("INSULIN", "Chr11:2160000"),
     ("DYSTROPHIN", "ChrX:31200000"), ("CFTR", "Chr7:117120000"),
     ("TP53", "Chr17:7670000"), ("BRCA1", "Chr17:43044000")]),
   ("mus_musculus",
    [("Lrp5", "Chr19:3400000"), ("Col1a1", "Chr11:94940000"), ("Mstn", "Chr1:53060000")])]

/-- Embedding of `find_real_insertion_locus` (api/endpoints.py): exact
gene-name match, then partial match (Python's substring `in`, both
directions), then a safe-harbor choice keyed on sequence length, then the
generic fallback site. The `list(values)[i]` defaults use `getD` with an
empty-string default; the tables in the source are never empty so that
default is unreachable. -/
def find_real_insertion_locus (gene_name : String) (host_organism : String)
    (sequence : String) : String :=
  let upper := strUpper gene_name
  let gene_step : Option String :=
    match lookupBy gene_specific_sites host_organism with
    | none => none
    | some sites =>
      match lookupBy sites upper with
      | some locus => some locus
      | none =>
        (sites.find? (fun p => strContains p.1 upper || strContains upper p.1)).map Prod.snd
  match gene_step with
  | some locus => locus
  | none =>
    match lookupBy safe_harbors host_organism with
    | some harbors =>
      let vals := harbors.map Prod.snd
      if sequence.length < 2000 then
        (lookupBy harbors "AAVS1").getD (vals.getD 0 "")
      else if sequence.length < 5000 then
        (lookupBy harbors "ROSA26").getD
          (if harbors.length > 1 then vals.getD 1 "" else vals.getD 0 "")
      else
        (lookupBy harbors "CCR5").getD (vals.getD 0 "")
    | none => "Chr1:100000000"

example : find_real_insertion_locus "LRP5" "homo_sapiens" "ATG" = "Chr11:68200000" := by rfl

example : find_real_insertion_locus "SIM1" "escherichia_coli" "ATG" = "Position:4361000" := by rfl

example : find_real_insertion_locus "SIM1" "danio_rerio" "ATG" = "Chr1:100000000" := by rfl

/-! ## Gene resolver (core/bioinformatics.py, find_gene_for_trait) -/

/-- Embedding of the static `trait_to_gene` table in
`BioinformaticsEngine.find_gene_for_trait` (trait key to gene name and
species). -/
def trait_to_gene : List (String × (String × String)) :=
  [("high bone density", ("LRP5", "Ursus maritimus")),
   ("uv radiation tolerance", ("XP-V", "Deinococcus radiodurans")),
   ("drought resistance", ("AREB1", "Arabidopsis thaliana")),
   ("cold tolerance", ("CBF", "Arabidopsis thaliana")),
   ("disease resistance", ("NLR", "Oryza sativa")),
   ("insulin production", ("INS", "Homo sapiens"))]

/-- Embedding of the static `simulated_genes` table in
`BioinformaticsEngine._simulate_gene_search`. -/
def simulated_genes : List (String × GeneRec) :=
  [("high bone density",
    { name := "LRP5", species := "Ursus maritimus", ncbi_id := "101885918",
      sequence := "ATGGGCTCTCTGGTGCTGCTGCTGGTGCTGCTGGTGCTGCTGGTGCTGCTGGTGCTGCTGGTGCTGCTGGTG",
      description := "Low-density lipoprotein receptor-related protein 5, linked to unusually high bone density in polar bears." }),
   ("uv radiation tolerance",
    { name := "XP-V", species := "Deinococcus radiodurans", ncbi_id := "100385918",
      sequence := "ATGGCCTCTCTGGTGCTGCTGCTGGTGCTGCTGGTGCTGCTGGTGCTGCTGGTGCTGCTGGTGCTGCTGGTG",
      description := "Xeroderma pigmentosum variant protein, involved in DNA repair mechanisms against radiation damage." }),
   ("pain insensitivity",
    { name := "SCN9A", species := "Heterocephalus glaber", ncbi_id := "101704257",
      sequence := "ATGGATTACAACACGCTGGCCAACACGCTGGCCAACACGCTGGCCAACACGCTGGCCAACACGCTGGCCA",
      description := "Sodium voltage-gated channel alpha subunit 9, mutations are linked to insensitivity to certain types of pain in naked mole-rats." }),
   ("hypoxia tolerance",
    { name := "HIF1A", species := "Heterocephalus glaber", ncbi_id := "101706691",
      sequence := "ATGCCTAGAGGTGCTCATGGTGCTCATGGTGCTCATGGTGCTCATGGTGCTCATGGTGCTCATGGTGCTCA",
      description := "Hypoxia-inducible factor 1-alpha, a key regulator for survival in low-oxygen environments." }),
   ("freeze tolerance",
    { name := "AFGP", species := "Boreogadus saida", ncbi_id := "101149420",
      sequence := "ATGACAGCACTAGCCACATTGGCCACATTGGCCACATTGGCCACATTGGCCACATTGGCCACATTGGCCA",
      description := "Antifreeze glycoprotein, prevents ice crystal growth in the blood of polar cod." }),
   ("toxin resistance",
    { name := "SCN4A", species := "Thamnophis sirtalis", ncbi_id := "102914589",
      sequence := "ATGTCCGATTCGGATGAGCGGATGAGCGGATGAGCGGATGAGCGGATGAGCGGATGAGCGGATGAGCGGA",
      description := "Sodium voltage-gated channel alpha subunit 4, mutations provide resistance to tetrodotoxin in garter snakes." })]

/-- Embedding of `BioinformaticsEngine._simulate_gene_search`: the static
per-trait record when the lowercased trait is known, otherwise the
synthesized SIM1 placeholder whose sequence is `ATG` followed by the 300
random bases drawn by `random.choices("ATCG", k=300)`, here the oracle
parameter `random_bases`. -/
def simulate_gene_search (trait : String) (organism : String)
    (random_bases : List Char) : GeneRec :=
  match lookupBy simulated_genes (strLower trait) with
  | some g => g
  | none =>
    { name := "SIM1",
      species := organism,
      ncbi_id := "999999999",
      sequence := "ATG" ++ String.mk random_bases,
      description := "Simulated gene for " ++ trait }

/-- Embedding of `BioinformaticsEngine.find_gene_for_trait`. The NCBI
client chain (`search_gene` / `get_gene_info` / `get_gene_sequence`, each of
which swallows its own exceptions and returns empty/None on failure) is
collapsed into the oracle `ncbi`: `some g` models ids found with truthy
gene data and sequence (`if gene_data and sequence` in the source), `none`
models every failing or empty outcome, which falls back to the simulated
search. -/
def find_gene_for_trait (trait : String) (organism : String)
    (ncbi : Option GeneRec) (random_bases : List Char) : GeneRec :=
  if (lookupBy trait_to_gene (strLower trait)).isSome then
    match ncbi with
    | some g => g
    | none => simulate_gene_search trait organism random_bases
  else
    simulate_gene_search trait organism random_bases

/-! ## Pipeline orchestrator (api/endpoints.py, run_simulation) -/

/-- Output of one successful pass through the `run_simulation` pipeline
body, together with a trace of which sequence each downstream stage
received (needed to state the data-flow claims) and the new
structure-predictor availability flag. -/
structure PipelineTrace where
  response : SynthesisResponse
  off_target_input : String
  fold_input : String
  confidence_input : String
  locus_input : String
  fold_available' : Bool

/-- Embedding of the `try` body of `run_simulation` (api/endpoints.py lines
177-304), starting after gene resolution: `gene` is the record produced by
`find_gene_for_trait`. Oracle parameters: `rng`/`off_fault` drive the
off-target predictor, `fold_available`/`ext`/`extractConf`/`genPdb`/`simConf`
drive the structure predictor, `toxicity`/`immunogenicity`/`environmental`
are the risk assessor's random draws, and `recommendation_text` is the
output of the external LLM recommendation chain (which never raises:
`generate_recommendation` catches internally). Python's
`optimized_sequence or gene_data["sequence"]` maps `None` and the empty
string to the original gene sequence. -/
def run_simulation_body (request_id : String) (req : SynthesisRequest) (gene : GeneRec)
    (rng : RandomOracle) (off_fault : Bool)
    (fold_available : Bool) (ext : Option String)
    (extractConf : String → ℚ) (genPdb : String → String) (simConf : String → ℚ)
    (toxicity immunogenicity environmental : ℚ)
    (recommendation_text : String) : PipelineTrace :=
  let optimized_sequence : Option String :=
    if req.optimize then some (optimize_codon_usage gene.sequence req.host_organism)
    else none
  let target_sequence :=
    match optimized_sequence with
    | some s => if s.length = 0 then gene.sequence else s
    | none => gene.sequence
  let off_target_analysis := predict_off_target_effects target_sequence req.host_organism rng off_fault
  let fold := fold_protein fold_available ext extractConf genPdb simConf target_sequence
  let risk_assessment := assess_risks toxicity immunogenicity environmental
  let confidence_score := confidence_score_calc target_sequence
  let insertion_locus :=
    find_real_insertion_locus gene.name (organismValue req.host_organism) target_sequence
  { response :=
      { request_id := request_id,
        status := "completed",
        gene :=
          { name := gene.name, species := gene.species, ncbi_id := gene.ncbi_id,
            sequence := gene.sequence, sequence_length := gene.sequence.length,
            description := gene.description },
        optimized_sequence := optimized_sequence,
        insertion_locus := insertion_locus,
        off_target_analysis := off_target_analysis,
        protein_structure := fold.result,
        risk_assessment := risk_assessment,
        recommendation := recommendation_text,
        confidence_score := confidence_score },
    off_target_input := target_sequence,
    fold_input := target_sequence,
    confidence_input := target_sequence,
    locus_input := target_sequence,
    fold_available' := fold.available' }

/-- Embedding of the `except` branch of `run_simulation` (api/endpoints.py
lines 306-342): the well-formed error response built from the exception
message. -/
def error_response (request_id : String) (msg : String) : SynthesisResponse :=
  { request_id := request_id,
    status := "error",
    gene :=
      { name := "", species := "", ncbi_id := "", sequence := "",
        sequence_length := 0, description := "Error: " ++ msg },
    optimized_sequence := none,
    insertion_locus := "",
    off_target_analysis :=
      { total_sites := 0, high_risk_sites := 0, sites := [],
        warnings := ["Processing error: " ++ msg] },
    protein_structure := { pdb_data := "", confidence_score := 0, method := "" },
    risk_assessment :=
      { toxicity_score := 0, immunogenicity_score := 0, environmental_risk_score := 0,
        recommendations := ["Simulation failed due to an error"] },
    recommendation := "Unable to generate recommendation due to processing error.",
    confidence_score := 0 }

/-- Embedding of the whole of `run_simulation`: the single `try`/`except`
wraps the entire stage sequence, so the call always returns a
`SynthesisResponse` to its caller — `Except.ok` carries the response of a
body run that raised no exception, and `Except.error msg` models any
internal exception with message `msg`, converted to the error response. -/
def run_simulation (request_id : String)
    (body : Except String SynthesisResponse) : SynthesisResponse :=
  match body with
  | .ok r => r
  | .error msg => error_response request_id msg

/-! ## Result retrieval with TTL sweep (api/endpoints.py, get_results) -/

/-- Observable outcome of one `get_results` call: the early HTTP 404, a
returned result, or the uncaught `KeyError` raised by
`simulation_results[request_id]` after the sweep deleted the entry (which
surfaces to the transport layer as an internal server error, not a 404). -/
inductive GetResultsOutcome where
  | http404
  | ok (r : SynthesisResponse)
  | keyErrorCrash
deriving DecidableEq, Repr

/-- Embedding of the `get_results` handler (api/endpoints.py lines
148-171) over the module-level stores `simulation_results` and
`simulation_times` (association lists keyed by request id, times and the
clock as integer seconds). Source order: (1) early 404 when the id is not
stored; (2) sweep deleting every stored result older than 3600 seconds
(removing its timestamp too); (3) index the swept store. Returns the
outcome together with the post-call stores. -/
def get_results (results : List (String × SynthesisResponse))
    (times : List (String × Int)) (request_id : String) (current_time : Int) :
    GetResultsOutcome × List (String × SynthesisResponse) × List (String × Int) :=
  if (lookupBy results request_id).isSome = false then
    (.http404, results, times)
  else
    let expired := fun (rid : String) =>
      match lookupBy times rid with
      | some t => decide (current_time - t > 3600)
      | none => false
    let results' := results.filter (fun p => !(expired p.1))
    let times' := times.filter (fun p => !(expired p.1 && (lookupBy results p.1).isSome))
    match lookupBy results' request_id with
    | some r => (.ok r, results', times')
    | none => (.keyErrorCrash, results', times')

/-! ## Concrete fixtures used by witnesses and counterexamples -/

/-- Test that a character is one of the four DNA bases. -/
def validBase (c : Char) : Bool :=
  c == 'A' || c == 'C' || c == 'G' || c == 'T'

/-- A concrete random oracle: the synthesized target is the first 20 bases
of the input and `randint` returns the lower bound. -/
def rngZero : RandomOracle :=
  { genSeq := fun s _ => s.take 20, randintIn := fun a _ => a }

/-- A concrete request with `optimize=false`. -/
def req_no_opt : SynthesisRequest :=
  { host_organism := .human, desired_trait := "high bone density",
    optimize := false, safety_check := true }

/-- A concrete request with `optimize=true`. -/
def req_opt : SynthesisRequest :=
  { host_organism := .human, desired_trait := "night vision",
    optimize := true, safety_check := true }

/-- A small concrete gene record. -/
def gene_demo : GeneRec :=
  { name := "DEMO", species := "homo_sapiens", ncbi_id := "1",
    sequence := "ATGAAAGGG", description := "demo gene" }

/-- A concrete gene record whose whole coding frame starts with a stop
codon, so codon optimization returns the empty string. -/
def gene_stop : GeneRec :=
  { name := "STOPGENE", species := "homo_sapiens", ncbi_id := "2",
    sequence := "TAA", description := "gene starting with a stop codon" }

/-- A concrete 1500-base sequence with GC content exactly 50%. -/
def seq1500 : String :=
  String.mk (List.replicate 750 'G' ++ List.replicate 750 'T')

/-- A concrete stored response used to populate the result store in the
retrieval scenarios. -/
def demo_response : SynthesisResponse :=
  error_response "seed-id" "demo"

/-! ## Helper lemmas: substrings and string concatenation -/

theorem startsWithList_self (l : List Char) : startsWithList l l = true := by
  induction l with
  | nil => rfl
  | cons a t ih => simp [startsWithList, ih]

theorem hasSubstr_append_self (p m : List Char) : hasSubstr (p ++ m) m = true := by
  induction p with
  | nil =>
    cases m with
    | nil => rfl
    | cons a t => simp [hasSubstr, startsWithList_self]
  | cons a t ih => simp [hasSubstr, ih]

theorem string_data_append (p m : String) : (p ++ m).toList = p.toList ++ m.toList := by
  cases p
  cases m
  rfl

theorem strContains_append_self (p m : String) : strContains (p ++ m) m = true := by
  unfold strContains
  rw [string_data_append]
  exact hasSubstr_append_self _ _

/-! ## Helper lemmas: translation -/

theorem chunk3_length_dvd : ∀ (l : List Char) (cs : List String),
    chunk3 l = some cs → 3 ∣ l.length
  | [], _, _ => ⟨0, rfl⟩
  | [_], _, h => by simp [chunk3] at h
  | [_, _], _, h => by simp [chunk3] at h
  | a :: b :: c :: rest, cs, h => by
    simp only [chunk3, Option.map_eq_some'] at h
    obtain ⟨cs', hcs', _⟩ := h
    have ih := chunk3_length_dvd rest cs' hcs'
    simp only [List.length_cons]
    omega

theorem chunk3_flatten_eq : ∀ (l : List Char) (cs : List String),
    chunk3 l = some cs → l = (cs.map String.toList).flatten
  | [], cs, h => by
    simp only [chunk3, Option.some_inj] at h
    subst h
    rfl
  | [_], _, h => by simp [chunk3] at h
  | [_, _], _, h => by simp [chunk3] at h
  | a :: b :: c :: rest, cs, h => by
    simp only [chunk3, Option.map_eq_some'] at h
    obtain ⟨cs', hcs', rfl⟩ := h
    have ih := chunk3_flatten_eq rest cs' hcs'
    simp [ih]

theorem mapCodons_none_of_mem (cs : List String) (c : String)
    (hmem : c ∈ cs) (hnone : translate_codon c = none) : mapCodons cs = none := by
  induction cs with
  | nil => cases hmem
  | cons d t ih =>
    rcases List.mem_cons.mp hmem with rfl | hmem'
    · simp [mapCodons, hnone]
    · cases hd : translate_codon d with
      | none => simp [mapCodons, hd]
      | some a => simp [mapCodons, hd, ih hmem']

theorem mapCodons_mem_image : ∀ (cs : List String) (l : List Char),
    mapCodons cs = some l → ∀ a ∈ l, ∃ c, translate_codon c = some a := by
  intro cs
  induction cs with
  | nil =>
    intro l h
    simp only [mapCodons, Option.some_inj] at h
    subst h
    intro a ha
    cases ha
  | cons d t ih =>
    intro l h
    cases hd : translate_codon d with
    | none => simp [mapCodons, hd] at h
    | some b =>
      simp only [mapCodons, hd, Option.map_eq_some'] at h
      obtain ⟨l', hl', rfl⟩ := h
      intro a ha
      rcases List.mem_cons.mp ha with rfl | ha'
      · exact ⟨d, hd⟩
      · exact ih l' hl' a ha'

theorem translate_codon_valid (c : String) (a : Char)
    (h : translate_codon c = some a) : c.toList.all validBase = true := by
  unfold translate_codon lookupBy at h
  obtain ⟨p, hp, hpa⟩ := Option.map_eq_some'.mp h
  have hkey : p.1 = c := by
    have := List.find?_some hp
    simpa using this
  have hmem := List.mem_of_find?_eq_some hp
  have hall : standard_genetic_code.all (fun q => q.1.toList.all validBase) = true := by decide
  have := List.all_eq_true.mp hall p hmem
  rw [← hkey]
  exact this

theorem translate_codon_mem_image (c : String) (a : Char)
    (h : translate_codon c = some a) : a ∈ standard_genetic_code.map Prod.snd := by
  unfold translate_codon lookupBy at h
  obtain ⟨p, hp, hpa⟩ := Option.map_eq_some'.mp h
  have hmem := List.mem_of_find?_eq_some hp
  exact hpa ▸ List.mem_map_of_mem Prod.snd hmem

theorem human_best_sound :
    ∀ a ∈ standard_genetic_code.map Prod.snd,
      a = '*' ∨ (translate_codon (preferred_codon HUMAN_CODON_USAGE a) = some a
        ∧ (preferred_codon HUMAN_CODON_USAGE a).toList.length = 3) := by
  decide

theorem string_join_data (l : List String) :
    (String.join l).toList = (l.map String.toList).flatten := by
  have gen : ∀ (l' : List String) (acc : String),
      (List.foldl (fun r s => r ++ s) acc l').toList
        = acc.toList ++ (l'.map String.toList).flatten := by
    intro l'
    induction l' with
    | nil => intro acc; simp
    | cons s t ih =>
      intro acc
      rw [List.foldl_cons, ih, string_data_append]
      simp
  show (List.foldl (fun r s => r ++ s) "" l).toList = _
  rw [gen l ""]
  rfl

theorem chunk3_build (f : Char → String) : ∀ (pre : List Char),
    (∀ a ∈ pre, (f a).toList.length = 3) →
    chunk3 ((pre.map (fun a => (f a).toList)).flatten) = some (pre.map f) := by
  intro pre
  induction pre with
  | nil => intro _; rfl
  | cons a t ih =>
    intro h
    have h3 := h a (List.mem_cons_self a t)
    obtain ⟨x, y, z, hxyz⟩ := List.length_eq_three.mp h3
    simp only [List.map_cons, List.flatten_cons]
    rw [hxyz]
    show chunk3 (x :: y :: z :: (t.map (fun b => (f b).toList)).flatten) = _
    simp only [chunk3]
    rw [ih (fun b hb => h b (List.mem_cons_of_mem a hb))]
    have hmk : String.mk [x, y, z] = f a := by
      rw [← hxyz]
      exact rfl
    simp [hmk]

theorem mapCodons_build (f : Char → String) : ∀ (pre : List Char),
    (∀ a ∈ pre, translate_codon (f a) = some a) →
    mapCodons (pre.map f) = some pre := by
  intro pre
  induction pre with
  | nil => intro _; rfl
  | cons a t ih =>
    intro h
    simp only [List.map_cons, mapCodons, h a (List.mem_cons_self a t)]
    rw [ih (fun b hb => h b (List.mem_cons_of_mem a hb))]
    rfl

theorem translate_join_preferred (pre : List Char)
    (h : ∀ a ∈ pre, translate_codon (preferred_codon HUMAN_CODON_USAGE a) = some a
      ∧ (preferred_codon HUMAN_CODON_USAGE a).toList.length = 3) :
    translate_sequence (String.join (pre.map (preferred_codon HUMAN_CODON_USAGE)))
      = some (String.mk pre) := by
  unfold translate_sequence
  rw [string_join_data, List.map_map]
  have hch : chunk3 ((pre.map (fun a => ((preferred_codon HUMAN_CODON_USAGE a)).toList)).flatten)
      = some (pre.map (preferred_codon HUMAN_CODON_USAGE)) :=
    chunk3_build _ pre (fun a ha => (h a ha).2)
  have hcomp : (pre.map (String.toList ∘ preferred_codon HUMAN_CODON_USAGE))
      = pre.map (fun a => ((preferred_codon HUMAN_CODON_USAGE a)).toList) := rfl
  rw [hcomp, hch]
  show (mapCodons (pre.map (preferred_codon HUMAN_CODON_USAGE))).map (fun l => String.mk l)
    = some (String.mk pre)
  rw [mapCodons_build _ pre (fun a ha => (h a ha).1)]
  rfl

/-! ## Claim theorems -/

/-- C2: for every `OffTargetAnalysis` produced by
`predict_off_target_effects` — on the normal path and on the fallback path
after an internal fault, for every sequence, organism and random draw —
`high_risk_sites` equals the number of sites whose impact is `"High"` and
`total_sites` equals the length of the site list. -/
theorem claim_C2_off_target_invariant
    (sequence : String) (host_organism : Organism) (rng : RandomOracle) (fault : Bool) :
    (predict_off_target_effects sequence host_organism rng fault).high_risk_sites
      = ((predict_off_target_effects sequence host_organism rng fault).sites.filter
          (fun st => st.potential_impact == "High")).length
    ∧ (predict_off_target_effects sequence host_organism rng fault).total_sites
      = (predict_off_target_effects sequence host_organism rng fault).sites.length :=
  ⟨rfl, rfl⟩

/-- C6: the structure predictor's circuit breaker. Once the
`esmfold_available` flag is false, every `fold_protein` call skips the
external provider and takes the simulated path with the flag staying false;
the flag can only be true afterwards if it was true before and the external
call returned a non-empty payload (so it is never set back to true); a
failure (exception or empty result) while the flag is true clears it; and a
whole trace of calls starting from a cleared flag leaves it cleared. -/
theorem claim_C6_circuit_breaker
    (extractConf : String → ℚ) (genPdb : String → String) (simConf : String → ℚ)
    (ext : Option String) (sequence : String) (flag : Bool) :
    ((fold_protein false ext extractConf genPdb simConf sequence).attempted_external = false
      ∧ (fold_protein false ext extractConf genPdb simConf sequence).result.method = "Simulated"
      ∧ (fold_protein false ext extractConf genPdb simConf sequence).available' = false)
    ∧ ((fold_protein flag ext extractConf genPdb simConf sequence).available' = true →
        flag = true ∧ ∃ p, ext = some p ∧ p.length ≠ 0)
    ∧ (flag = true → (ext = none ∨ ext = some "") →
        (fold_protein flag ext extractConf genPdb simConf sequence).available' = false
        ∧ (fold_protein flag ext extractConf genPdb simConf sequence).result.method = "Simulated")
    ∧ (∀ calls, fold_flag_run extractConf genPdb simConf false calls = false) := by
  refine ⟨⟨rfl, rfl, rfl⟩, ?_, ?_, ?_⟩
  · intro h
    cases flag with
    | false => simp [fold_protein] at h
    | true =>
      cases ext with
      | none => simp [fold_protein] at h
      | some p =>
        by_cases hp : p.length ≠ 0
        · exact ⟨rfl, p, rfl, hp⟩
        · simp [fold_protein, hp] at h
  · rintro rfl (rfl | rfl)
    · exact ⟨rfl, rfl⟩
    · exact ⟨rfl, rfl⟩
  · intro calls
    induction calls with
    | nil => rfl
    | cons c rest ih => exact ih

/-- C6 witness: the circuit-breaker theorem applied at concrete inputs — a
cleared flag skips the external provider, a failing external call clears a
set flag, and a two-call trace from a cleared flag ends cleared. -/
theorem claim_C6_circuit_breaker_witness :
    (fold_protein false none (fun _ => 0.7) (fun _ => "P") (fun _ => 0.5) "MKT").attempted_external = false
    ∧ (fold_protein true none (fun _ => 0.7) (fun _ => "P") (fun _ => 0.5) "MKT").available' = false
    ∧ fold_flag_run (fun _ => 0.7) (fun _ => "P") (fun _ => 0.5) false
        [(some "X", "A"), (none, "B")] = false :=
  ⟨(claim_C6_circuit_breaker (fun _ => 0.7) (fun _ => "P") (fun _ => 0.5) none "MKT" false).1.1,
   ((claim_C6_circuit_breaker (fun _ => 0.7) (fun _ => "P") (fun _ => 0.5) none "MKT" true).2.2.1
      rfl (Or.inl rfl)).1,
   (claim_C6_circuit_breaker (fun _ => 0.7) (fun _ => "P") (fun _ => 0.5) none "MKT" false).2.2.2 _⟩

/-- C1 counterexample: the claim asserts the fault message is carried in
both the recommendation and the gene description; at the concrete fault
message `boom` the error response's recommendation is the fixed generic
text, which does not contain the message (while the description does). -/
theorem claim_C1_counterexample :
    strContains (run_simulation "r1" (Except.error "boom")).recommendation "boom" = false
    ∧ strContains (run_simulation "r1" (Except.error "boom")).gene.description "boom" = true :=
  ⟨rfl, rfl⟩

/-- C1 amended: the pipeline run never raises to its caller — a body that
completes is returned as-is and any internal exception is converted into a
well-formed `status="error"` response with every numeric score zeroed and
the fault message carried in the gene description (prefixed `Error: `) and
in the off-target warnings, while the recommendation is the fixed text
`Unable to generate recommendation due to processing error.`. -/
theorem claim_C1_error_response_shape (request_id msg : String) :
    (run_simulation request_id (Except.error msg)).status = "error"
    ∧ (run_simulation request_id (Except.error msg)).confidence_score = 0
    ∧ (run_simulation request_id (Except.error msg)).risk_assessment.toxicity_score = 0
    ∧ (run_simulation request_id (Except.error msg)).risk_assessment.immunogenicity_score = 0
    ∧ (run_simulation request_id (Except.error msg)).risk_assessment.environmental_risk_score = 0
    ∧ (run_simulation request_id (Except.error msg)).protein_structure.confidence_score = 0
    ∧ (run_simulation request_id (Except.error msg)).gene.description = "Error: " ++ msg
    ∧ strContains (run_simulation request_id (Except.error msg)).gene.description msg = true
    ∧ (run_simulation request_id (Except.error msg)).off_target_analysis.warnings
        = ["Processing error: " ++ msg]
    ∧ (run_simulation request_id (Except.error msg)).recommendation
        = "Unable to generate recommendation due to processing error."
    ∧ ∀ r, run_simulation request_id (Except.ok r) = r := by
  refine ⟨rfl, rfl, rfl, rfl, rfl, rfl, rfl, ?_, rfl, rfl, fun r => rfl⟩
  exact strContains_append_self "Error: " msg

/-- C5: evaluation of the `get_results` handler on a concrete store holding
one result issued at time 0. Retrieving it at time 4000 (past the one-hour
TTL) does not produce the 404-equivalent the claim requires: the handler
passes the early membership check, the sweep deletes the expired entry, and
the final store indexing raises `KeyError` (surfaced as a transport-level
internal error). A never-issued id does return the 404, and a fresh entry
is returned intact; the sweep does empty the store of expired entries. -/
theorem claim_C5_expired_id_crashes :
    (get_results [("id1", demo_response)] [("id1", 0)] "id1" 4000).1
      = GetResultsOutcome.keyErrorCrash
    ∧ (get_results [("id1", demo_response)] [("id1", 0)] "never-issued" 4000).1
      = GetResultsOutcome.http404
    ∧ (get_results [("id1", demo_response)] [("id1", 0)] "id1" 100).1
      = GetResultsOutcome.ok demo_response
    ∧ (get_results [("id1", demo_response)] [("id1", 0)] "id1" 4000).2.1 = [] :=
  ⟨rfl, rfl, rfl, rfl⟩

/-- C3: the orchestrator's confidence computation agrees, for every
sequence, with the deterministic formula the spec states (base 0.6, GC-band
adjustment, protein-coding bonus, length-band adjustment, clamped to
[0.3, 0.95], with GC% of an empty sequence treated as 50); in particular a
sequence with GC content exactly 50% and length 1500 scores 0.95. -/
theorem claim_C3_confidence_formula (sequence : String) :
    confidence_score_calc sequence = confidence_score_spec sequence
    ∧ (gc_content sequence = 50 → sequence.length = 1500 →
        confidence_score_calc sequence = 0.95) := by
  constructor
  · have hgc : ∀ (c : ℚ) (n : ℕ), (100 * c / (n : ℚ)) = (c / (n : ℚ)) * 100 := by
      intro c n; ring
    simp only [confidence_score_calc, confidence_score_spec, gc_content, hgc]
    split_ifs <;> (try norm_num) <;> omega
  · intro h50 hlen
    simp only [confidence_score_calc, h50, hlen]
    norm_num

/-- C3 witness: the concrete 1500-base sequence of 750 G's and 750 T's has
GC content exactly 50% and scores exactly 0.95. -/
theorem claim_C3_confidence_formula_witness :
    gc_content seq1500 = 50 ∧ seq1500.length = 1500
    ∧ confidence_score_calc seq1500 = 0.95 := by
  have hlen : seq1500.length = 1500 := by
    show (List.replicate 750 'G' ++ List.replicate 750 'T').length = 1500
    rw [List.length_append, List.length_replicate, List.length_replicate]
  have hG : seq1500.toList.count 'G' = 750 := by
    show (List.replicate 750 'G' ++ List.replicate 750 'T').count 'G' = 750
    rw [List.count_append, List.count_replicate, List.count_replicate]
    rfl
  have hC : seq1500.toList.count 'C' = 0 := by
    show (List.replicate 750 'G' ++ List.replicate 750 'T').count 'C' = 0
    rw [List.count_append, List.count_replicate, List.count_replicate]
    rfl
  have hgc : gc_content seq1500 = 50 := by
    unfold gc_content
    rw [hlen, hG, hC]
    norm_num
  exact ⟨hgc, hlen, (claim_C3_confidence_formula seq1500).2 hgc hlen⟩

/-- C7: whenever translation fails the codon optimizer returns the original
sequence unchanged (and, being a total function of its inputs, never raises
past this stage); in particular translation fails — and the input is
returned unchanged — for every sequence whose length is not a multiple of
three or which contains a character that is not one of the four bases. -/
theorem claim_C7_optimizer_fallback (s : String) (org : Organism) :
    (translate_sequence s = none → optimize_codon_usage s org = s)
    ∧ ((¬ (3 ∣ s.length) ∨ ∃ c ∈ s.toList, validBase c = false) →
        translate_sequence s = none ∧ optimize_codon_usage s org = s) := by
  have base : translate_sequence s = none → optimize_codon_usage s org = s := by
    intro h
    simp [optimize_codon_usage, h]
  refine ⟨base, ?_⟩
  intro h
  have hnone : translate_sequence s = none := by
    unfold translate_sequence
    cases hc : chunk3 s.toList with
    | none => rfl
    | some cs =>
      rcases h with h | ⟨c, hmem, hbad⟩
      · exact absurd (chunk3_length_dvd _ _ hc) h
      · have hflat := chunk3_flatten_eq _ _ hc
        rw [hflat] at hmem
        obtain ⟨lc, hlc, hcin⟩ := List.mem_flatten.mp hmem
        obtain ⟨cd, hcd, rfl⟩ := List.mem_map.mp hlc
        have hcdnone : translate_codon cd = none := by
          cases ht : translate_codon cd with
          | none => rfl
          | some a =>
            have hv := List.all_eq_true.mp (translate_codon_valid _ _ ht) c hcin
            rw [hbad] at hv
            cases hv
        show Option.map (fun l => String.mk l) (mapCodons cs) = none
        rw [mapCodons_none_of_mem cs cd hcd hcdnone]
        rfl
  exact ⟨hnone, base hnone⟩

/-- C7 witness: the concrete four-base sequence `ATGG` (length not a
multiple of three) fails translation and passes through the optimizer
unchanged. -/
theorem claim_C7_optimizer_fallback_witness :
    translate_sequence "ATGG" = none
    ∧ optimize_codon_usage "ATGG" Organism.human = "ATGG" :=
  (claim_C7_optimizer_fallback "ATGG" Organism.human).2 (Or.inl (by decide))

/-- C4 counterexample: for the mouse organism (whose codon-usage table only
contains the amino acids A, R and L) the claim fails on the sequence `ATG`:
methionine is not a key of the mouse table, so the optimizer emits the
sentinel `NNN`, which does not translate back to `M` — the encoded protein
is not preserved. -/
theorem claim_C4_counterexample :
    translate_sequence (optimize_codon_usage "ATG" Organism.mouse)
      ≠ (translate_sequence "ATG").map
          (fun aas => String.mk (aas.toList.takeWhile (fun a => a ≠ '*'))) := by
  decide

theorem mem_takeWhile_pred (p : Char → Bool) (l : List Char) (a : Char)
    (ha : a ∈ l.takeWhile p) : p a = true := by
  induction l with
  | nil => cases ha
  | cons b t ih =>
    cases hpb : p b with
    | true =>
      rw [List.takeWhile_cons_of_pos hpb] at ha
      rcases List.mem_cons.mp ha with rfl | h'
      · exact hpb
      · exact ih h'
    | false =>
      rw [List.takeWhile_cons_of_neg (by simp [hpb])] at ha
      cases ha

/-- C4 amended: for every target organism whose selected codon-usage table
is the full human table (human, and any organism other than mouse and
E. coli, which dispatch to the human table), codon optimization preserves
the encoded protein — translating the optimized sequence yields exactly the
translation of the original sequence truncated at (and excluding) the first
in-frame stop codon. -/
theorem claim_C4_optimization_preserves_protein (org : Organism) (s aas : String)
    (htab : codon_usage_table org = HUMAN_CODON_USAGE)
    (ht : translate_sequence s = some aas) :
    translate_sequence (optimize_codon_usage s org)
      = some (String.mk (aas.toList.takeWhile (fun a => a ≠ '*'))) := by
  unfold optimize_codon_usage
  rw [ht, htab]
  have hmem : ∀ a ∈ aas.toList.takeWhile (fun a => a ≠ '*'), ∃ c, translate_codon c = some a := by
    intro a ha
    have ha' : a ∈ aas.toList := (List.takeWhile_sublist _).subset ha
    unfold translate_sequence at ht
    obtain ⟨cs, hcs, hmapped⟩ := Option.bind_eq_some.mp ht
    obtain ⟨l, hl, hmk⟩ := Option.map_eq_some'.mp hmapped
    have hll : aas.toList = l := by
      rw [← hmk]
      exact rfl
    rw [hll] at ha'
    exact mapCodons_mem_image cs l hl a ha'
  have hstar : ∀ a ∈ aas.toList.takeWhile (fun a => a ≠ '*'), a ≠ '*' := by
    intro a ha
    exact of_decide_eq_true (mem_takeWhile_pred _ _ a ha)
  have hgood : ∀ a ∈ aas.toList.takeWhile (fun a => a ≠ '*'),
      translate_codon (preferred_codon HUMAN_CODON_USAGE a) = some a
      ∧ (preferred_codon HUMAN_CODON_USAGE a).toList.length = 3 := by
    intro a ha
    obtain ⟨c, hc⟩ := hmem a ha
    rcases human_best_sound a (translate_codon_mem_image c a hc) with h | h
    · exact absurd h (hstar a ha)
    · exact h
  exact translate_join_preferred _ hgood

/-- C4 witness for the amended claim: optimizing `ATGTTATAAATG` (Met, Leu,
stop, Met) for the human organism yields `ATGCTG`, whose translation `ML`
is exactly the original translation `ML*M` truncated at the first stop. -/
theorem claim_C4_optimization_preserves_protein_witness :
    translate_sequence (optimize_codon_usage "ATGTTATAAATG" Organism.human)
      = some (String.mk (("ML*M" : String).toList.takeWhile (fun a => a ≠ '*'))) :=
  claim_C4_optimization_preserves_protein Organism.human "ATGTTATAAATG" "ML*M" rfl (by decide)

/-- C8: for every request with `optimize=false` the orchestrator leaves
`optimized_sequence` unset (`None`) and every downstream stage — off-target
prediction, structure prediction, confidence scoring and insertion-locus
selection — receives the original resolved gene sequence. -/
theorem claim_C8_no_optimize_data_flow
    (rid : String) (req : SynthesisRequest) (gene : GeneRec) (rng : RandomOracle)
    (off_fault fold_available : Bool) (ext : Option String)
    (ec : String → ℚ) (gp : String → String) (sc : String → ℚ)
    (t i e : ℚ) (rec_text : String)
    (h : req.optimize = false) :
    (run_simulation_body rid req gene rng off_fault fold_available ext ec gp sc t i e rec_text).response.optimized_sequence = none
    ∧ (run_simulation_body rid req gene rng off_fault fold_available ext ec gp sc t i e rec_text).off_target_input = gene.sequence
    ∧ (run_simulation_body rid req gene rng off_fault fold_available ext ec gp sc t i e rec_text).fold_input = gene.sequence
    ∧ (run_simulation_body rid req gene rng off_fault fold_available ext ec gp sc t i e rec_text).confidence_input = gene.sequence
    ∧ (run_simulation_body rid req gene rng off_fault fold_available ext ec gp sc t i e rec_text).locus_input = gene.sequence := by
  simp [run_simulation_body, h]

/-- C8 witness: the data-flow theorem applied to a concrete
`optimize=false` request and a concrete gene record. -/
theorem claim_C8_no_optimize_data_flow_witness :
    (run_simulation_body "rid8" req_no_opt gene_demo rngZero false true none
      (fun _ => 0.7) (fun _ => "P") (fun _ => 0.5) 0.2 0.3 0.1 "rec").response.optimized_sequence = none
    ∧ (run_simulation_body "rid8" req_no_opt gene_demo rngZero false true none
      (fun _ => 0.7) (fun _ => "P") (fun _ => 0.5) 0.2 0.3 0.1 "rec").off_target_input = gene_demo.sequence
    ∧ (run_simulation_body "rid8" req_no_opt gene_demo rngZero false true none
      (fun _ => 0.7) (fun _ => "P") (fun _ => 0.5) 0.2 0.3 0.1 "rec").fold_input = gene_demo.sequence
    ∧ (run_simulation_body "rid8" req_no_opt gene_demo rngZero false true none
      (fun _ => 0.7) (fun _ => "P") (fun _ => 0.5) 0.2 0.3 0.1 "rec").confidence_input = gene_demo.sequence
    ∧ (run_simulation_body "rid8" req_no_opt gene_demo rngZero false true none
      (fun _ => 0.7) (fun _ => "P") (fun _ => 0.5) 0.2 0.3 0.1 "rec").locus_input = gene_demo.sequence :=
  claim_C8_no_optimize_data_flow "rid8" req_no_opt gene_demo rngZero false true none
    (fun _ => 0.7) (fun _ => "P") (fun _ => 0.5) 0.2 0.3 0.1 "rec" rfl

/-- C10: when `optimize=true` and codon optimization returns the empty
string, every downstream stage silently falls back to the original gene
sequence (Python's `optimized_sequence or gene_data["sequence"]` treats the
empty string as falsy) while the response's `optimized_sequence` field
still holds the empty string rather than being unset. -/
theorem claim_C10_empty_optimized_fallback
    (rid : String) (req : SynthesisRequest) (gene : GeneRec) (rng : RandomOracle)
    (off_fault fold_available : Bool) (ext : Option String)
    (ec : String → ℚ) (gp : String → String) (sc : String → ℚ)
    (t i e : ℚ) (rec_text : String)
    (hopt : req.optimize = true)
    (hempty : optimize_codon_usage gene.sequence req.host_organism = "") :
    (run_simulation_body rid req gene rng off_fault fold_available ext ec gp sc t i e rec_text).response.optimized_sequence = some ""
    ∧ (run_simulation_body rid req gene rng off_fault fold_available ext ec gp sc t i e rec_text).off_target_input = gene.sequence
    ∧ (run_simulation_body rid req gene rng off_fault fold_available ext ec gp sc t i e rec_text).fold_input = gene.sequence
    ∧ (run_simulation_body rid req gene rng off_fault fold_available ext ec gp sc t i e rec_text).confidence_input = gene.sequence
    ∧ (run_simulation_body rid req gene rng off_fault fold_available ext ec gp sc t i e rec_text).locus_input = gene.sequence := by
  simp [run_simulation_body, hopt, hempty]

/-- C10 witness: the concrete gene whose sequence `TAA` begins with a stop
codon optimizes to the empty string, and the fallback theorem applies. -/
theorem claim_C10_empty_optimized_fallback_witness :
    (run_simulation_body "ridA" req_opt gene_stop rngZero false true none
      (fun _ => 0.7) (fun _ => "P") (fun _ => 0.5) 0.2 0.3 0.1 "rec").response.optimized_sequence = some ""
    ∧ (run_simulation_body "ridA" req_opt gene_stop rngZero false true none
      (fun _ => 0.7) (fun _ => "P") (fun _ => 0.5) 0.2 0.3 0.1 "rec").off_target_input = gene_stop.sequence
    ∧ (run_simulation_body "ridA" req_opt gene_stop rngZero false true none
      (fun _ => 0.7) (fun _ => "P") (fun _ => 0.5) 0.2 0.3 0.1 "rec").fold_input = gene_stop.sequence
    ∧ (run_simulation_body "ridA" req_opt gene_stop rngZero false true none
      (fun _ => 0.7) (fun _ => "P") (fun _ => 0.5) 0.2 0.3 0.1 "rec").confidence_input = gene_stop.sequence
    ∧ (run_simulation_body "ridA" req_opt gene_stop rngZero false true none
      (fun _ => 0.7) (fun _ => "P") (fun _ => 0.5) 0.2 0.3 0.1 "rec").locus_input = gene_stop.sequence :=
  claim_C10_empty_optimized_fallback "ridA" req_opt gene_stop rngZero false true none
    (fun _ => 0.7) (fun _ => "P") (fun _ => 0.5) 0.2 0.3 0.1 "rec" rfl rfl

/-- C9: for every trait found in neither the trait-to-gene table nor the
simulated-gene table, gene resolution returns the synthesized record with
name `SIM1`, sequence `ATG` followed by the 300 random bases (length 303),
the descriptive label `Simulated gene for <trait>`, and any pipeline run on
that gene completes with `status="completed"`. -/
theorem claim_C9_unknown_trait_sim_gene
    (trait organism : String) (ncbi : Option GeneRec) (random_bases : List Char)
    (h1 : lookupBy trait_to_gene (strLower trait) = none)
    (h2 : lookupBy simulated_genes (strLower trait) = none)
    (h3 : random_bases.length = 300) :
    (find_gene_for_trait trait organism ncbi random_bases).name = "SIM1"
    ∧ (find_gene_for_trait trait organism ncbi random_bases).sequence.length = 303
    ∧ (find_gene_for_trait trait organism ncbi random_bases).description
        = "Simulated gene for " ++ trait
    ∧ ∀ rid req rng off_fault fold_available ext ec gp sc t i e rec_text,
        (run_simulation_body rid req (find_gene_for_trait trait organism ncbi random_bases)
          rng off_fault fold_available ext ec gp sc t i e rec_text).response.status
          = "completed" := by
  have hg : find_gene_for_trait trait organism ncbi random_bases
      = { name := "SIM1", species := organism, ncbi_id := "999999999",
          sequence := "ATG" ++ String.mk random_bases,
          description := "Simulated gene for " ++ trait } := by
    simp [find_gene_for_trait, simulate_gene_search, h1, h2]
  refine ⟨by rw [hg], ?_, by rw [hg], ?_⟩
  · rw [hg]
    show ("ATG" ++ String.mk random_bases).length = 303
    rw [String.length_append]
    show 3 + random_bases.length = 303
    rw [h3]
  · intro rid req rng off_fault fold_available ext ec gp sc t i e rec_text
    rfl

/-- C9 witness: the concrete unknown trait `night vision` resolves to the
SIM1 placeholder of length 303 and a concrete pipeline run on it reports
`status="completed"`. -/
theorem claim_C9_unknown_trait_sim_gene_witness :
    (find_gene_for_trait "night vision" "homo_sapiens" none (List.replicate 300 'A')).name = "SIM1"
    ∧ (find_gene_for_trait "night vision" "homo_sapiens" none (List.replicate 300 'A')).sequence.length = 303
    ∧ (run_simulation_body "rid9" req_opt
        (find_gene_for_trait "night vision" "homo_sapiens" none (List.replicate 300 'A'))
        rngZero false true none (fun _ => 0.7) (fun _ => "P") (fun _ => 0.5)
        0.2 0.3 0.1 "rec").response.status = "completed" := by
  have h := claim_C9_unknown_trait_sim_gene "night vision" "homo_sapiens" none
    (List.replicate 300 'A') rfl rfl (List.length_replicate 300 'A')
  exact ⟨h.1, h.2.1,
    h.2.2.2 "rid9" req_opt rngZero false true none (fun _ => 0.7) (fun _ => "P")
      (fun _ => 0.5) 0.2 0.3 0.1 "rec"⟩
